import Mathlib

/-!
Shallow embedding of the HashiCups Vault secrets-engine plugin
(packages `secretsengine` and `vault-plugin-secrets-hashicups`).

Modelling conventions:
* The host's storage collaborator is modelled as typed, pure state:
  the configuration slot is an `Option myConfig` and the role store is a
  total function `String → Option myRoleEntry` (key `role/<name>`).
  Storage get/put/delete are assumed not to fault, and entries round-trip
  through JSON without decode errors, so the `err != nil` branches of
  `s.Get`/`DecodeJSON` are unreachable in the model.
* Go handler results `(*logical.Response, error)` are modelled by
  `HandlerResult`: `ok` for a data-bearing (or nil) response with nil error,
  `errResp` for `logical.ErrorResponse(msg)` (a user-facing validation
  error), `fault` for a non-nil Go error, and `panicked` for a Go runtime
  panic (nil-pointer dereference, failed type assertion).
* `map[string]interface{}` values are modelled by `GoValue`
  (string / int / bool are enough to distinguish the string and
  non-string cases the code branches on).
* Calls to the upstream HashiCups API are recorded in a `List UpstreamCall`
  trace returned alongside each result: `construct` for
  `hashicups.NewClient` (which signs in when credentials are given),
  `signIn` for `Client.SignIn`, `signOut` for `Client.SignOut`.
  The abstract upstream behaviour is passed in as function parameters.
* `time.Duration` is an `int64` count of nanoseconds in Go; durations are
  modelled as `Int` with the two's-complement 64-bit wrap made explicit
  (`wrap64`) where the code multiplies seconds by `time.Second`.
-/

/-- Result of a Go path-operation handler `(*logical.Response, error)`. -/
inductive HandlerResult (α : Type) where
  | ok : α → HandlerResult α
  | errResp : String → HandlerResult α
  | fault : String → HandlerResult α
  | panicked : HandlerResult α
  deriving DecidableEq, Repr

/-- Untyped Go value stored in `map[string]interface{}` internal data. -/
inductive GoValue where
  | str : String → GoValue
  | int : Int → GoValue
  | bool : Bool → GoValue
  deriving DecidableEq, Repr

/-- myConfig includes the minimum configuration required to instantiate a
new My client (`path_config.go`). -/
structure myConfig where
  username : String
  password : String
  url : String
  deriving DecidableEq, Repr

/-- An event on the wire to the upstream HashiCups API. -/
inductive UpstreamCall where
  | construct : myConfig → UpstreamCall
  | signIn : UpstreamCall
  | signOut : String → UpstreamCall
  deriving DecidableEq, Repr

/-- myClient wraps the hashicups client handle; the observable content is
the configuration it was constructed from (`client.go`). -/
structure myClient where
  config : myConfig
  deriving DecidableEq, Repr

/-- myBackend holds the cached upstream client (`backend.go`); the
read/write lock is a concurrency artefact with no sequential content. -/
structure myBackend where
  client : Option myClient
  deriving DecidableEq, Repr

/-- getConfig (`path_config.go` lines 340-357): storage get of key
`config`; absent storage yields `nil, nil`, decode errors are unreachable
in the typed storage model. -/
def getConfig (s : Option myConfig) : Except String (Option myConfig) :=
  Except.ok s

/-- pathConfigRead (`path_config.go` lines 361-375). The Go code reads the
config and immediately builds `{"username": config.Username, "url":
config.URL}`; when no configuration is stored, `getConfig` returns a nil
pointer and the field accesses dereference nil, which is a Go runtime
panic — modelled by `HandlerResult.panicked`. -/
def pathConfigRead (s : Option myConfig) : HandlerResult (List (String × String)) :=
  match getConfig s with
  | Except.error e => HandlerResult.fault e
  | Except.ok none => HandlerResult.panicked
  | Except.ok (some config) =>
      HandlerResult.ok [("username", config.username), ("url", config.url)]

/-- Supplied-ness of the `config` endpoint fields: `GetOk` returns false
exactly when the raw request data lacks the key. -/
structure ConfigFields where
  username : Option String
  url : Option String
  password : Option String
  deriving DecidableEq, Repr

/-- pathConfigDelete (`path_config.go` lines 379-388): storage delete of
`config` (never faults in the model), then `b.reset()` clears the cached
client. -/
def pathConfigDelete (b : myBackend) (s : Option myConfig) :
    HandlerResult Unit × myBackend × Option myConfig :=
  let _ := s
  (HandlerResult.ok (), { b with client := none }, none)

/-- pathConfigWrite (`path_config.go` lines 398-446): update of a missing
config is an error; on create each of username, url, password is
mandatory; supplied fields overwrite the prior record; the result is
persisted and the cached client is reset. -/
def pathConfigWrite (isCreate : Bool) (b : myBackend) (s : Option myConfig)
    (d : ConfigFields) : HandlerResult Unit × myBackend × Option myConfig :=
  match s, isCreate with
  | none, false => (HandlerResult.fault "config not found during update operation", b, s)
  | _, _ =>
    let c0 := s.getD { username := "", password := "", url := "" }
    if d.username = none ∧ isCreate = true then
      (HandlerResult.fault "missing username in configuration", b, s)
    else if d.url = none ∧ isCreate = true then
      (HandlerResult.fault "missing url in configuration", b, s)
    else if d.password = none ∧ isCreate = true then
      (HandlerResult.fault "missing password in configuration", b, s)
    else
      let c1 := match d.username with
        | some u => { c0 with username := u }
        | none => c0
      let c2 := match d.url with
        | some u => { c1 with url := u }
        | none => c1
      let c3 := match d.password with
        | some p => { c2 with password := p }
        | none => c2
      (HandlerResult.ok (), { b with client := none }, some c3)

/-- newClient (`client.go` lines 19-40): nil config and each empty field
are rejected in order (username, password, URL) before
`hashicups.NewClient` is reached; the upstream constructor behaviour is
the parameter `u` (`none` = success, `some e` = error) and its invocation
is recorded in the trace. -/
def newClient (u : myConfig → Option String) (config : Option myConfig) :
    Except String myClient × List UpstreamCall :=
  match config with
  | none => (Except.error "client configuration was nil", [])
  | some c =>
    if c.username = "" then (Except.error "client username was not defined", [])
    else if c.password = "" then (Except.error "client password was not defined", [])
    else if c.url = "" then (Except.error "client URL was not defined", [])
    else
      match u c with
      | some e => (Except.error e, [UpstreamCall.construct c])
      | none => (Except.ok { config := c }, [UpstreamCall.construct c])

/-- getClient (`backend.go` lines 82-109): return the cached client if
present; otherwise read the configuration, replace an absent configuration
by a fresh zero-valued one (`config = new(myConfig)`), build a client via
`newClient` and cache it. -/
def getClient (u : myConfig → Option String) (b : myBackend) (cfg : Option myConfig) :
    Except String myClient × myBackend × List UpstreamCall :=
  match b.client with
  | some c => (Except.ok c, b, [])
  | none =>
    match getConfig cfg with
    | Except.error e => (Except.error e, b, [])
    | Except.ok copt =>
      let config := copt.getD { username := "", password := "", url := "" }
      match newClient u (some config) with
      | (Except.error e, tr) => (Except.error e, b, tr)
      | (Except.ok c, tr) => (Except.ok c, { b with client := some c }, tr)

/-- wrap64 gives the two's-complement wrap of an integer to `int64`, the
representation underlying Go's `time.Duration`. -/
def wrap64 (x : Int) : Int :=
  (x + 2 ^ 63) % 2 ^ 64 - 2 ^ 63

/-- One second in `time.Duration` units (nanoseconds). -/
def timeSecond : Int := 1000000000

/-- Go `time.Duration(t) * time.Second` for a second count `t` parsed from
a `TypeDurationSecond` field: int64 multiplication with wrap. -/
def durationFromSeconds (t : Int) : Int :=
  wrap64 (t * timeSecond)

/-- myRoleEntry (`path_roles.go` lines 15-22): a stored Vault role. The
role record has no name field; it is keyed by name only in storage. -/
structure myRoleEntry where
  username : String
  userID : Int
  token : String
  tokenID : String
  ttl : Int
  maxTTL : Int
  deriving DecidableEq, Repr

/-- Go zero value of `myRoleEntry` (`new(myRoleEntry)`). -/
def emptyRoleEntry : myRoleEntry :=
  { username := "", userID := 0, token := "", tokenID := "", ttl := 0, maxTTL := 0 }

/-- Role storage: the `role/<name>` keyspace of the host's key-value
store, modelled as a typed map from name to record. -/
def RoleStorage : Type := String → Option myRoleEntry

/-- getRole (`path_roles.go` lines 94-117): empty name is an error,
otherwise the storage lookup; `nil, nil` for an absent key. -/
def getRole (s : RoleStorage) (name : String) : Except String (Option myRoleEntry) :=
  if name = "" then Except.error "missing role name" else Except.ok (s name)

/-- setRole (`path_roles.go` lines 139-158): JSON-encode and put under
`role/<name>`; the encode/put failure branches are unreachable in the
typed storage model. -/
def setRole (s : RoleStorage) (name : String) (r : myRoleEntry) : RoleStorage :=
  fun n => if n = name then some r else s n

/-- Supplied-ness of the `role/<name>` endpoint fields: `GetOk` is false
exactly when the raw request data lacks the key; `ttl`/`max_ttl` arrive as
second counts. -/
structure RoleFields where
  name : Option String
  username : Option String
  ttl : Option Int
  maxTTL : Option Int
  deriving DecidableEq, Repr

/-- The merge performed by pathRolesWrite (`path_roles.go` lines 183-199):
each supplied field overwrites the prior record; on a create operation an
unsupplied ttl/max_ttl is set from the field default `d.Get`, which is 0. -/
def mergeRoleFields (isCreate : Bool) (r0 : myRoleEntry) (d : RoleFields) : myRoleEntry :=
  let r1 := match d.username with
    | some u => { r0 with username := u }
    | none => r0
  let r2 := match d.ttl with
    | some t => { r1 with ttl := durationFromSeconds t }
    | none => if isCreate then { r1 with ttl := durationFromSeconds 0 } else r1
  match d.maxTTL with
  | some t => { r2 with maxTTL := durationFromSeconds t }
  | none => if isCreate then { r2 with maxTTL := durationFromSeconds 0 } else r2

/-- pathRolesWrite (`path_roles.go` lines 163-210): load the prior record
(zero record when absent), require username on create, merge supplied
fields, reject `MaxTTL != 0 && TTL > MaxTTL` with a user-facing error
response before persisting, otherwise store the merged record. -/
def pathRolesWrite (isCreate : Bool) (s : RoleStorage) (d : RoleFields) :
    HandlerResult Unit × RoleStorage :=
  match d.name with
  | none => (HandlerResult.errResp "missing role name", s)
  | some name =>
    match getRole s name with
    | Except.error e => (HandlerResult.fault e, s)
    | Except.ok prior =>
      if d.username = none ∧ isCreate = true then
        (HandlerResult.fault "missing username in role", s)
      else
        let merged := mergeRoleFields isCreate (prior.getD emptyRoleEntry) d
        if merged.maxTTL ≠ 0 ∧ merged.maxTTL < merged.ttl then
          (HandlerResult.errResp "ttl cannot be greater than max_ttl", s)
        else
          (HandlerResult.ok (), setRole s name merged)

/-- pathRolesDelete (`path_roles.go` lines 213-227): missing name is a
user-facing error; otherwise the key is removed (storage delete never
faults in the model). -/
def pathRolesDelete (s : RoleStorage) (d : RoleFields) :
    HandlerResult Unit × RoleStorage :=
  match d.name with
  | none => (HandlerResult.errResp "missing role name", s)
  | some name => (HandlerResult.ok (), fun n => if n = name then none else s n)

/-- Payload of a successful upstream `SignIn` call (`models.AuthResponse`:
user id and JWT). -/
structure SignInResponse where
  userID : Int
  token : String
  deriving DecidableEq, Repr

/-- myToken (`path_token.go` lines 58-67): the minted HashiCups secret. -/
structure myToken where
  userID : Int
  username : String
  tokenID : String
  token : String
  deriving DecidableEq, Repr

/-- createToken, package-level (`path_token.go` lines 127-145): one
upstream `SignIn` (behaviour parameter `sIn`, recorded in the trace); on
success the token is packaged with a fresh uuid (parameter `tid`, the
value of `uuid.New().String()`) and the given username. -/
def createToken (sIn : myClient → Except String SignInResponse) (tid : String)
    (c : myClient) (username : String) :
    Except String myToken × List UpstreamCall :=
  match sIn c with
  | Except.error e =>
      (Except.error ("error creating HashiCups token: " ++ e), [UpstreamCall.signIn])
  | Except.ok r =>
      (Except.ok { userID := r.userID, username := username, tokenID := tid, token := r.token },
       [UpstreamCall.signIn])

/-- The method `(b *myBackend) createToken` (`path_credentials.go` lines
36-58), renamed here because the package-level `createToken` shares its
name: obtain the client, then call the package-level createToken with the
role's username, wrapping its error once more; the `token == nil` guard
after a nil error is unreachable. -/
def backendCreateToken (u : myConfig → Option String)
    (sIn : myClient → Except String SignInResponse) (tid : String)
    (b : myBackend) (cfg : Option myConfig) (roleEntry : myRoleEntry) :
    Except String myToken × myBackend × List UpstreamCall :=
  match getClient u b cfg with
  | (Except.error e, b1, tr) => (Except.error e, b1, tr)
  | (Except.ok client, b1, tr) =>
    match createToken sIn tid client roleEntry.username with
    | (Except.error e, tr2) =>
        (Except.error ("error creating HashiCups token: " ++ e), b1, tr ++ tr2)
    | (Except.ok t, tr2) => (Except.ok t, b1, tr ++ tr2)

/-- The lease-bound secret response built by `b.Secret(...).Response`:
public data, internal data, and the lease TTL/MaxTTL, where 0 is the
framework's initial value meaning "host default applies". -/
structure SecretResponse where
  publicData : List (String × GoValue)
  internalData : List (String × GoValue)
  ttl : Int
  maxTTL : Int
  deriving DecidableEq, Repr

/-- createUserCreds (`path_credentials.go` lines 62-91): mint a token,
expose {token, token_id, user_id, username} publicly, store
{token, role} internally — the "role" entry holds `role.Username` — and
override TTL/MaxTTL from the role only when the role value is positive. -/
def createUserCreds (u : myConfig → Option String)
    (sIn : myClient → Except String SignInResponse) (tid : String)
    (b : myBackend) (cfg : Option myConfig) (role : myRoleEntry) :
    HandlerResult SecretResponse × myBackend × List UpstreamCall :=
  match backendCreateToken u sIn tid b cfg role with
  | (Except.error e, b1, tr) => (HandlerResult.fault e, b1, tr)
  | (Except.ok token, b1, tr) =>
    let resp : SecretResponse :=
      { publicData := [("token", GoValue.str token.token),
                       ("token_id", GoValue.str token.tokenID),
                       ("user_id", GoValue.int token.userID),
                       ("username", GoValue.str token.username)],
        internalData := [("token", GoValue.str token.token),
                         ("role", GoValue.str role.username)],
        ttl := if role.ttl > 0 then role.ttl else 0,
        maxTTL := if role.maxTTL > 0 then role.maxTTL else 0 }
    (HandlerResult.ok resp, b1, tr)

/-- pathCredentialsRead (`path_credentials.go` lines 94-111): resolve the
role by the `name` field; a lookup fault is wrapped, an absent role is the
error `error retrieving role: role is nil`; only then are credentials
created. -/
def pathCredentialsRead (u : myConfig → Option String)
    (sIn : myClient → Except String SignInResponse) (tid : String)
    (b : myBackend) (cfg : Option myConfig) (s : RoleStorage) (name : String) :
    HandlerResult SecretResponse × myBackend × List UpstreamCall :=
  match getRole s name with
  | Except.error e => (HandlerResult.fault ("error retrieving role: " ++ e), b, [])
  | Except.ok none => (HandlerResult.fault "error retrieving role: role is nil", b, [])
  | Except.ok (some roleEntry) => createUserCreds u sIn tid b cfg roleEntry

/-- The lease secret round-tripped back by the host for revoke/renew
(`req.Secret`): the internal data map and the lease TTL/MaxTTL. -/
structure LeaseSecret where
  internalData : String → Option GoValue
  ttl : Int
  maxTTL : Int

/-- The token extraction at the top of tokenRevoke (`path_token.go` lines
111-118): `token := ""`, then only if the "token" key is present is the
string assertion checked — an absent key silently leaves the empty token,
a present non-string value is a hard error. -/
def tokenFromInternal (internal : String → Option GoValue) : Except String String :=
  match internal "token" with
  | none => Except.ok ""
  | some (GoValue.str t) => Except.ok t
  | some _ => Except.error "invalid value for token in secret internal data"

/-- deleteToken (`path_token.go` lines 85-98): set the client's token and
call the upstream `SignOut` (behaviour parameter `sOut`, recorded in the
trace); both the error branch and the success branch return nil, so an
upstream sign-out failure is swallowed. -/
def deleteToken (sOut : myClient → String → Option String) (c : myClient)
    (token : String) : Option String × List UpstreamCall :=
  match sOut c token with
  | some _ => (none, [UpstreamCall.signOut token])
  | none => (none, [UpstreamCall.signOut token])

/-- tokenRevoke (`path_token.go` lines 101-124): obtain the client first
(wrapping a failure as `error getting client`), extract the token per
`tokenFromInternal`, then call deleteToken; a deleteToken error would be
wrapped, but deleteToken never errors. -/
def tokenRevoke (u : myConfig → Option String)
    (sOut : myClient → String → Option String) (b : myBackend)
    (cfg : Option myConfig) (internal : String → Option GoValue) :
    HandlerResult Unit × myBackend × List UpstreamCall :=
  match getClient u b cfg with
  | (Except.error e, b1, tr) =>
      (HandlerResult.fault ("error getting client: " ++ e), b1, tr)
  | (Except.ok client, b1, tr) =>
    match tokenFromInternal internal with
    | Except.error e => (HandlerResult.fault e, b1, tr)
    | Except.ok token =>
      match deleteToken sOut client token with
      | (some e, tr2) =>
          (HandlerResult.fault ("error revoking user token: " ++ e), b1, tr ++ tr2)
      | (none, tr2) => (HandlerResult.ok (), b1, tr ++ tr2)

/-- tokenRenew (`path_token.go` lines 149-179): a missing "role" key in
the internal data is an error; a present value goes through the unchecked
type assertion `roleRaw.(string)`, which panics on a non-string value;
then the role is re-resolved (absent role is the error `error retrieving
role: role is nil`) and, if found, the lease TTL/MaxTTL are overwritten by
the role's values when those are positive. The returned `LeaseSecret` is
the final state of `req.Secret`; no upstream call is ever made. -/
def tokenRenew (s : RoleStorage) (sec : LeaseSecret) :
    HandlerResult Unit × LeaseSecret × List UpstreamCall :=
  match sec.internalData "role" with
  | none => (HandlerResult.fault "secret is missing role internal data", sec, [])
  | some (GoValue.str role) =>
    match getRole s role with
    | Except.error e => (HandlerResult.fault ("error retrieving role: " ++ e), sec, [])
    | Except.ok none => (HandlerResult.fault "error retrieving role: role is nil", sec, [])
    | Except.ok (some roleEntry) =>
      let s1 := if roleEntry.ttl > 0 then { sec with ttl := roleEntry.ttl } else sec
      let s2 := if roleEntry.maxTTL > 0 then { s1 with maxTTL := roleEntry.maxTTL } else s1
      (HandlerResult.ok (), s2, [])
  | some _ => (HandlerResult.panicked, sec, [])

/-- A fully-populated configuration used as concrete input. -/
def cfgFull : myConfig := { username := "u", password := "p", url := "w" }

/-- A concrete constructed client. -/
def clientA : myClient := { config := cfgFull }

/-- A backend whose client cache is already populated. -/
def backendCached : myBackend := { client := some clientA }

/-- The empty role store. -/
def storeEmpty : RoleStorage := fun _ => none

/-- A concrete role: named "r1" in storage, bound to upstream identity
"alice", with 60s default TTL and 120s max TTL. -/
def roleR1 : myRoleEntry :=
  { username := "alice", userID := 0, token := "", tokenID := "",
    ttl := 60000000000, maxTTL := 120000000000 }

/-- A role store holding exactly `roleR1` under the key "r1". -/
def storeR1 : RoleStorage := fun n => if n = "r1" then some roleR1 else none

/-- Lease internal data with "token" bound to a non-string value. -/
def internalInt : String → Option GoValue :=
  fun k => if k = "token" then some (GoValue.int 5) else none

/-- Lease internal data with "token" bound to the string "tok". -/
def internalTok : String → Option GoValue :=
  fun k => if k = "token" then some (GoValue.str "tok") else none

/-- A lease secret whose internal "role" entry names "r1". -/
def secRoleR1 : LeaseSecret :=
  { internalData := fun k => if k = "role" then some (GoValue.str "r1") else none,
    ttl := 10, maxTTL := 20 }

/-- A lease secret whose internal "role" entry is a non-string value. -/
def secIntRole : LeaseSecret :=
  { internalData := fun k => if k = "role" then some (GoValue.int 3) else none,
    ttl := 30, maxTTL := 60 }

/-- A role upsert request supplying no username. -/
def dMissingUser : RoleFields :=
  { name := some "r1", username := none, ttl := none, maxTTL := none }

/-- A role upsert request supplying every field with ttl 60s, max_ttl 120s. -/
def dFull : RoleFields :=
  { name := some "r1", username := some "alice", ttl := some 60, maxTTL := some 120 }

/-- A role upsert request whose merged record has ttl 120s over max_ttl 60s. -/
def dTtlBad : RoleFields :=
  { name := some "r1", username := some "alice", ttl := some 120, maxTTL := some 60 }

/-- The write step of the write-then-delete configuration scenario. -/
def cexWriteStep : HandlerResult Unit × myBackend × Option myConfig :=
  pathConfigWrite true { client := none } none
    { username := some "alice", url := some "https://api.example", password := some "pw" }

/-- The delete step of the write-then-delete configuration scenario. -/
def cexDeleteStep : HandlerResult Unit × myBackend × Option myConfig :=
  pathConfigDelete cexWriteStep.2.1 cexWriteStep.2.2

/-- deleteToken returns nil in both the error and the success branch of
the upstream sign-out, after recording exactly one sign-out call. -/
theorem deleteToken_swallows (sOut : myClient → String → Option String)
    (c : myClient) (t : String) :
    deleteToken sOut c t = (none, [UpstreamCall.signOut t]) := by
  unfold deleteToken
  cases sOut c t <;> rfl

/-- The trace of newClient is empty or a single client construction. -/
theorem newClient_trace_shape (u : myConfig → Option String) (config : Option myConfig) :
    (newClient u config).2 = [] ∨
    ∃ c, (newClient u config).2 = [UpstreamCall.construct c] := by
  cases config with
  | none => left; rfl
  | some c =>
    simp only [newClient]
    split_ifs
    · left; rfl
    · left; rfl
    · left; rfl
    · cases hu : u c
      · right; exact ⟨c, rfl⟩
      · right; exact ⟨c, rfl⟩

/-- The trace of getClient is empty or a single client construction. -/
theorem getClient_trace_shape (u : myConfig → Option String) (b : myBackend)
    (cfg : Option myConfig) :
    (getClient u b cfg).2.2 = [] ∨
    ∃ c, (getClient u b cfg).2.2 = [UpstreamCall.construct c] := by
  obtain ⟨bc⟩ := b
  cases bc with
  | some c => left; rfl
  | none =>
    have h := newClient_trace_shape u (some (Option.getD cfg { username := "", password := "", url := "" }))
    simp only [getClient, getConfig]
    rcases hnc : newClient u (some (Option.getD cfg { username := "", password := "", url := "" })) with ⟨res, tr⟩
    rw [hnc] at h
    cases res <;> simpa using h

/-- No sign-out event ever appears in a getClient trace. -/
theorem getClient_no_signOut (u : myConfig → Option String) (b : myBackend)
    (cfg : Option myConfig) (r : Except String myClient) (b1 : myBackend)
    (tr : List UpstreamCall) (h : getClient u b cfg = (r, b1, tr)) (t : String) :
    UpstreamCall.signOut t ∉ tr := by
  have hs := getClient_trace_shape u b cfg
  rw [h] at hs
  rcases hs with hs | ⟨c, hs⟩
  · rw [show tr = [] from hs]; simp
  · rw [show tr = [UpstreamCall.construct c] from hs]; simp

/-- C1 counterexample: with a configured backend and lease internal data
lacking a "token" key, tokenRevoke does not fail — it reports success and
performs an upstream sign-out with the empty token, contradicting the
claim that such a revoke fails with a malformed-lease error and performs
no upstream sign-out. -/
theorem tokenRevoke_missing_token_key_succeeds_cex :
    (tokenRevoke (fun _ => none) (fun _ _ => none) { client := none } (some cfgFull)
        (fun _ => none)).1 = HandlerResult.ok () ∧
    UpstreamCall.signOut "" ∈
      (tokenRevoke (fun _ => none) (fun _ _ => none) { client := none } (some cfgFull)
        (fun _ => none)).2.2 := by
  refine ⟨rfl, ?_⟩
  decide

/-- C1 (amended): provided a client is obtained, tokenRevoke fails with
the malformed-lease error `invalid value for token in secret internal
data` and performs no upstream sign-out only when the "token" key is
present with a non-string value; when the key is absent, it proceeds with
the empty token, performs the upstream sign-out, and reports success. -/
theorem tokenRevoke_token_key_amended
    (u : myConfig → Option String) (sOut : myClient → String → Option String)
    (b : myBackend) (cfg : Option myConfig) (internal : String → Option GoValue)
    (c : myClient) (b1 : myBackend) (tr : List UpstreamCall)
    (hclient : getClient u b cfg = (Except.ok c, b1, tr)) :
    (∀ v, internal "token" = some v → (∀ t, v ≠ GoValue.str t) →
       tokenRevoke u sOut b cfg internal =
         (HandlerResult.fault "invalid value for token in secret internal data", b1, tr) ∧
       ∀ t, UpstreamCall.signOut t ∉ tr) ∧
    (internal "token" = none →
       tokenRevoke u sOut b cfg internal =
         (HandlerResult.ok (), b1, tr ++ [UpstreamCall.signOut ""])) := by
  constructor
  · intro v hv hns
    refine ⟨?_, fun t => getClient_no_signOut u b cfg _ _ _ hclient t⟩
    cases v with
    | str t => exact absurd rfl (hns t)
    | int n => simp [tokenRevoke, hclient, tokenFromInternal, hv]
    | bool bb => simp [tokenRevoke, hclient, tokenFromInternal, hv]
  · intro h
    simp [tokenRevoke, hclient, tokenFromInternal, h, deleteToken_swallows]

/-- C1 witness: the amended behaviour at concrete inputs — a cached
client, internal data with an integer under "token" (hard error, no
sign-out) and internal data without "token" (success, sign-out with the
empty token). -/
theorem tokenRevoke_token_key_amended_witness :
    tokenRevoke (fun _ => none) (fun _ _ => none) backendCached none internalInt =
      (HandlerResult.fault "invalid value for token in secret internal data",
       backendCached, []) ∧
    tokenRevoke (fun _ => none) (fun _ _ => none) backendCached none (fun _ => none) =
      (HandlerResult.ok (), backendCached, [UpstreamCall.signOut ""]) :=
  ⟨((tokenRevoke_token_key_amended (fun _ => none) (fun _ _ => none) backendCached none
      internalInt clientA backendCached [] rfl).1 (GoValue.int 5) rfl
      (fun _ h => GoValue.noConfusion h)).1,
   (tokenRevoke_token_key_amended (fun _ => none) (fun _ _ => none) backendCached none
      (fun _ => none) clientA backendCached [] rfl).2 rfl⟩

/-- C2: the configuration read handler does not return an "absent" result
when no configuration record is stored — it dereferences the nil
configuration and panics; when a record is stored it returns exactly the
username and url, never the password. -/
theorem pathConfigRead_nil_config_panics :
    pathConfigRead none = HandlerResult.panicked ∧
    ∀ c : myConfig, pathConfigRead (some c) =
      HandlerResult.ok [("username", c.username), ("url", c.url)] :=
  ⟨rfl, fun _ => rfl⟩

/-- C3: whenever the lease yields a token and a client is obtained,
tokenRevoke reports success even though the upstream sign-out call
returns an error — the upstream failure is never propagated. -/
theorem tokenRevoke_swallows_signOut_error
    (u : myConfig → Option String) (sOut : myClient → String → Option String)
    (b : myBackend) (cfg : Option myConfig) (internal : String → Option GoValue)
    (c : myClient) (b1 : myBackend) (tr : List UpstreamCall) (t e : String)
    (hclient : getClient u b cfg = (Except.ok c, b1, tr))
    (htoken : tokenFromInternal internal = Except.ok t)
    (herr : sOut c t = some e) :
    tokenRevoke u sOut b cfg internal =
      (HandlerResult.ok (), b1, tr ++ [UpstreamCall.signOut t]) := by
  simp [tokenRevoke, hclient, htoken, deleteToken_swallows]

/-- C3 witness: a cached client, a string token in the internal data, and
an upstream sign-out that fails; the revoke still reports success. -/
theorem tokenRevoke_swallows_signOut_error_witness :
    tokenRevoke (fun _ => none) (fun _ _ => some "upstream sign out failed")
        backendCached none internalTok =
      (HandlerResult.ok (), backendCached, [UpstreamCall.signOut "tok"]) :=
  tokenRevoke_swallows_signOut_error (fun _ => none)
    (fun _ _ => some "upstream sign out failed") backendCached none internalTok
    clientA backendCached [] "tok" "upstream sign out failed" rfl rfl rfl

/-- C4 counterexample: issuing against the role stored under the name
"r1" (whose upstream identity is "alice") produces lease-internal data
whose "role" entry is "alice", not the Role Store name "r1" — the claim
that the internal role field holds the role's stored name is false. -/
theorem createUserCreds_role_field_is_username_cex :
    (pathCredentialsRead (fun _ => none) (fun _ => Except.ok { userID := 7, token := "jwt" })
        "id-1" { client := none } (some cfgFull) storeR1 "r1").1 =
      HandlerResult.ok
        { publicData := [("token", GoValue.str "jwt"), ("token_id", GoValue.str "id-1"),
                         ("user_id", GoValue.int 7), ("username", GoValue.str "alice")],
          internalData := [("token", GoValue.str "jwt"), ("role", GoValue.str "alice")],
          ttl := 60000000000, maxTTL := 120000000000 } ∧
    GoValue.str "alice" ≠ GoValue.str "r1" := by
  refine ⟨rfl, ?_⟩
  decide

/-- C4 (amended): every successful issuance against a stored role returns
public data {token, token_id, user_id, username}, internal data exactly
{token, role} where the "role" entry holds the role's upstream identity
(its username field) rather than its Role Store name, lease TTL equal to
the role's default ttl when positive (0, the host default, otherwise) and
MaxTTL likewise. -/
theorem createUserCreds_lease_descriptor_amended
    (u : myConfig → Option String) (sIn : myClient → Except String SignInResponse)
    (tid : String) (b : myBackend) (cfg : Option myConfig) (s : RoleStorage)
    (name : String) (r : myRoleEntry) (c : myClient) (b1 : myBackend)
    (tr : List UpstreamCall) (resp : SignInResponse)
    (hne : name ≠ "") (hrole : s name = some r)
    (hclient : getClient u b cfg = (Except.ok c, b1, tr))
    (hsign : sIn c = Except.ok resp) :
    pathCredentialsRead u sIn tid b cfg s name =
      (HandlerResult.ok
        { publicData := [("token", GoValue.str resp.token),
                         ("token_id", GoValue.str tid),
                         ("user_id", GoValue.int resp.userID),
                         ("username", GoValue.str r.username)],
          internalData := [("token", GoValue.str resp.token),
                           ("role", GoValue.str r.username)],
          ttl := if r.ttl > 0 then r.ttl else 0,
          maxTTL := if r.maxTTL > 0 then r.maxTTL else 0 },
       b1, tr ++ [UpstreamCall.signIn]) := by
  simp [pathCredentialsRead, getRole, if_neg hne, hrole, createUserCreds,
        backendCreateToken, hclient, createToken, hsign]

/-- C4 witness: the amended lease descriptor at concrete inputs — cached
client, role "r1" bound to "alice" with ttl 60s / max_ttl 120s, upstream
sign-in answering user id 7 and token "jwt". -/
theorem createUserCreds_lease_descriptor_amended_witness :
    pathCredentialsRead (fun _ => none) (fun _ => Except.ok { userID := 7, token := "jwt" })
        "id-1" backendCached none storeR1 "r1" =
      (HandlerResult.ok
        { publicData := [("token", GoValue.str "jwt"), ("token_id", GoValue.str "id-1"),
                         ("user_id", GoValue.int 7), ("username", GoValue.str "alice")],
          internalData := [("token", GoValue.str "jwt"), ("role", GoValue.str "alice")],
          ttl := 60000000000, maxTTL := 120000000000 },
       backendCached, [UpstreamCall.signIn]) :=
  createUserCreds_lease_descriptor_amended (fun _ => none)
    (fun _ => Except.ok { userID := 7, token := "jwt" }) "id-1" backendCached none storeR1
    "r1" roleR1 clientA backendCached [] { userID := 7, token := "jwt" }
    (by decide) rfl rfl rfl

/-- C5: whenever the merged record of a role upsert has positive max_ttl
smaller than its ttl, pathRolesWrite returns the user-facing validation
error response `ttl cannot be greater than max_ttl` (not a fault) and
leaves the role storage unchanged. -/
theorem pathRolesWrite_ttl_validation
    (isCreate : Bool) (s : RoleStorage) (d : RoleFields) (name : String)
    (hname : d.name = some name) (hne : name ≠ "")
    (huser : ¬(d.username = none ∧ isCreate = true))
    (hmax : 0 < (mergeRoleFields isCreate ((s name).getD emptyRoleEntry) d).maxTTL)
    (httl : (mergeRoleFields isCreate ((s name).getD emptyRoleEntry) d).maxTTL
            < (mergeRoleFields isCreate ((s name).getD emptyRoleEntry) d).ttl) :
    pathRolesWrite isCreate s d =
      (HandlerResult.errResp "ttl cannot be greater than max_ttl", s) := by
  have hmaxne : (mergeRoleFields isCreate ((s name).getD emptyRoleEntry) d).maxTTL ≠ 0 :=
    ne_of_gt hmax
  simp [pathRolesWrite, hname, getRole, if_neg hne, huser, hmaxne, httl]

/-- C5 witness: a create of "r1" with ttl 120s and max_ttl 60s is rejected
with the validation error response and the empty store is unchanged. -/
theorem pathRolesWrite_ttl_validation_witness :
    pathRolesWrite true storeEmpty dTtlBad =
      (HandlerResult.errResp "ttl cannot be greater than max_ttl", storeEmpty) :=
  pathRolesWrite_ttl_validation true storeEmpty dTtlBad "r1" rfl (by decide)
    (by decide) (by decide) (by decide)

/-- C6: for a renew whose internal data names a (nonempty) role, if the
role is absent from the store the renew fails with the not-found error
`error retrieving role: role is nil`, the lease secret is unchanged, and
no upstream call is made; if the role exists, the lease TTL/MaxTTL are
reset to the role's current values, each overridden only when the role's
value is positive, again with no upstream call. -/
theorem tokenRenew_role_resolution (s : RoleStorage) (sec : LeaseSecret) (rn : String)
    (hrole : sec.internalData "role" = some (GoValue.str rn)) (hne : rn ≠ "") :
    (s rn = none →
       tokenRenew s sec =
         (HandlerResult.fault "error retrieving role: role is nil", sec, [])) ∧
    (∀ r, s rn = some r →
       tokenRenew s sec =
         (HandlerResult.ok (),
          { sec with ttl := if r.ttl > 0 then r.ttl else sec.ttl,
                     maxTTL := if r.maxTTL > 0 then r.maxTTL else sec.maxTTL }, [])) := by
  constructor
  · intro habs
    simp [tokenRenew, hrole, getRole, if_neg hne, habs]
  · intro r hr
    simp only [tokenRenew, hrole, getRole, if_neg hne, hr]
    by_cases h1 : r.ttl > 0 <;> by_cases h2 : r.maxTTL > 0 <;> simp [h1, h2]

/-- C6 witness: renewing the lease bound to "r1" fails with the not-found
error and an unchanged lease when the store is empty (role deleted), and
resets TTL to 60s and MaxTTL to 120s when "r1" is present. -/
theorem tokenRenew_role_resolution_witness :
    tokenRenew storeEmpty secRoleR1 =
      (HandlerResult.fault "error retrieving role: role is nil", secRoleR1, []) ∧
    tokenRenew storeR1 secRoleR1 =
      (HandlerResult.ok (),
       { secRoleR1 with ttl := 60000000000, maxTTL := 120000000000 }, []) :=
  ⟨(tokenRenew_role_resolution storeEmpty secRoleR1 "r1" rfl (by decide)).1 rfl,
   (tokenRenew_role_resolution storeR1 secRoleR1 "r1" rfl (by decide)).2 roleR1 rfl⟩

/-- C7: an issuance request naming a (nonempty) role absent from the Role
Store fails with the not-found error `error retrieving role: role is nil`,
leaves the backend's client cache untouched, and performs no upstream
call, for every upstream behaviour. -/
theorem pathCredentialsRead_missing_role
    (u : myConfig → Option String) (sIn : myClient → Except String SignInResponse)
    (tid : String) (b : myBackend) (cfg : Option myConfig) (s : RoleStorage)
    (name : String) (hne : name ≠ "") (habs : s name = none) :
    pathCredentialsRead u sIn tid b cfg s name =
      (HandlerResult.fault "error retrieving role: role is nil", b, []) := by
  simp [pathCredentialsRead, getRole, if_neg hne, habs]

/-- C7 witness: `issue("missing-role")` on the empty store fails with the
not-found error, with an empty upstream trace. -/
theorem pathCredentialsRead_missing_role_witness :
    pathCredentialsRead (fun _ => none) (fun _ => Except.error "down") "id0"
        { client := none } none storeEmpty "missing-role" =
      (HandlerResult.fault "error retrieving role: role is nil", { client := none }, []) :=
  pathCredentialsRead_missing_role (fun _ => none) (fun _ => Except.error "down") "id0"
    { client := none } none storeEmpty "missing-role" (by decide) rfl

/-- C8 counterexample: writing the configuration, deleting it, then
calling getClient fails with the empty-username client-construction error
`client username was not defined`, not with the configuration-absent
error `client configuration was nil` the claim demands (the write step is
shown to succeed, so the scenario is the claimed one). -/
theorem getClient_absent_config_error_cex :
    (getClient (fun _ => none) cexDeleteStep.2.1 cexDeleteStep.2.2).1 =
      Except.error "client username was not defined" ∧
    (getClient (fun _ => none) cexDeleteStep.2.1 cexDeleteStep.2.2).1 ≠
      Except.error "client configuration was nil" ∧
    cexWriteStep.1 = HandlerResult.ok () := by
  refine ⟨rfl, ?_, rfl⟩
  intro h
  have h2 : (Except.error "client username was not defined" : Except String myClient) =
      Except.error "client configuration was nil" := h
  simp at h2

/-- C8 (amended): getClient returns a cached client unchanged; otherwise
it constructs a client from the stored configuration and caches it, and
it fails with a client-construction error whenever the configuration is
absent or one of its three fields is empty — an absent configuration is
replaced by an empty one before construction, so the absent case fails
with the empty-username construction error `client username was not
defined` rather than a configuration-absent error. -/
theorem getClient_cache_and_errors_amended (u : myConfig → Option String)
    (b : myBackend) (cfg : Option myConfig) :
    (∀ c, b.client = some c → getClient u b cfg = (Except.ok c, b, [])) ∧
    (b.client = none → cfg = none →
       getClient u b cfg = (Except.error "client username was not defined", b, [])) ∧
    (∀ c, b.client = none → cfg = some c → c.username = "" →
       getClient u b cfg = (Except.error "client username was not defined", b, [])) ∧
    (∀ c, b.client = none → cfg = some c → c.username ≠ "" → c.password = "" →
       getClient u b cfg = (Except.error "client password was not defined", b, [])) ∧
    (∀ c, b.client = none → cfg = some c → c.username ≠ "" → c.password ≠ "" → c.url = "" →
       getClient u b cfg = (Except.error "client URL was not defined", b, [])) ∧
    (∀ c, b.client = none → cfg = some c → c.username ≠ "" → c.password ≠ "" → c.url ≠ "" →
       u c = none →
       getClient u b cfg =
         (Except.ok { config := c }, { b with client := some { config := c } },
          [UpstreamCall.construct c])) := by
  refine ⟨?_, ?_, ?_, ?_, ?_, ?_⟩
  · intro c hc
    simp [getClient, hc]
  · intro hb hcfg
    subst hcfg
    simp [getClient, hb, getConfig, newClient]
  · intro c hb hcfg hu
    subst hcfg
    simp [getClient, hb, getConfig, newClient, hu]
  · intro c hb hcfg hu hp
    subst hcfg
    simp [getClient, hb, getConfig, newClient, hu, hp]
  · intro c hb hcfg hu hp hw
    subst hcfg
    simp [getClient, hb, getConfig, newClient, hu, hp, hw]
  · intro c hb hcfg hu hp hw hok
    subst hcfg
    simp [getClient, hb, getConfig, newClient, hu, hp, hw, hok]

/-- C8 witness: the amended behaviour at concrete inputs — a cached
client is returned unchanged; an empty cache with no stored configuration
fails with the empty-username construction error; an empty cache with a
fully-populated stored configuration constructs and caches the client. -/
theorem getClient_cache_and_errors_amended_witness :
    getClient (fun _ => none) backendCached none = (Except.ok clientA, backendCached, []) ∧
    getClient (fun _ => none) { client := none } none =
      (Except.error "client username was not defined", { client := none }, []) ∧
    getClient (fun _ => none) { client := none } (some cfgFull) =
      (Except.ok { config := cfgFull }, { client := some { config := cfgFull } },
       [UpstreamCall.construct cfgFull]) :=
  ⟨(getClient_cache_and_errors_amended (fun _ => none) backendCached none).1 clientA rfl,
   (getClient_cache_and_errors_amended (fun _ => none) { client := none } none).2.1 rfl rfl,
   (getClient_cache_and_errors_amended (fun _ => none) { client := none }
       (some cfgFull)).2.2.2.2.2 cfgFull rfl rfl (by decide) (by decide) (by decide) rfl⟩

/-- C9: a role upsert with a (nonempty) name fails with the missing-field
error when creating without a username; and whenever the upsert succeeds,
reading the role back returns exactly the merge of the prior record
(the zero record when none was stored) with the supplied fields, while
every other key of the store is untouched. -/
theorem pathRolesWrite_upsert_merge
    (isCreate : Bool) (s : RoleStorage) (d : RoleFields) (name : String)
    (hname : d.name = some name) (hne : name ≠ "") :
    (d.username = none → isCreate = true →
       pathRolesWrite isCreate s d = (HandlerResult.fault "missing username in role", s)) ∧
    ((pathRolesWrite isCreate s d).1 = HandlerResult.ok () →
       getRole (pathRolesWrite isCreate s d).2 name =
         Except.ok (some (mergeRoleFields isCreate ((s name).getD emptyRoleEntry) d)) ∧
       ∀ m, m ≠ name → (pathRolesWrite isCreate s d).2 m = s m) := by
  constructor
  · intro hu hc
    simp [pathRolesWrite, hname, getRole, if_neg hne, hu, hc]
  · intro hok
    by_cases husr : d.username = none ∧ isCreate = true
    · simp [pathRolesWrite, hname, getRole, if_neg hne, husr] at hok
    · by_cases hval :
          (mergeRoleFields isCreate ((s name).getD emptyRoleEntry) d).maxTTL ≠ 0 ∧
          (mergeRoleFields isCreate ((s name).getD emptyRoleEntry) d).maxTTL
            < (mergeRoleFields isCreate ((s name).getD emptyRoleEntry) d).ttl
      · simp [pathRolesWrite, hname, getRole, if_neg hne, husr, hval] at hok
      · constructor
        · simp [pathRolesWrite, hname, getRole, if_neg hne, husr, hval, setRole]
        · intro m hm
          simp [pathRolesWrite, hname, getRole, if_neg hne, husr, hval, setRole, hm]

/-- C9 witness: creating "r1" without a username fails with the
missing-field error; creating it with username "alice", ttl 60s and
max_ttl 120s succeeds, the read-back returns the merged record, and the
unrelated key "r2" is untouched. -/
theorem pathRolesWrite_upsert_merge_witness :
    pathRolesWrite true storeEmpty dMissingUser =
      (HandlerResult.fault "missing username in role", storeEmpty) ∧
    getRole (pathRolesWrite true storeEmpty dFull).2 "r1" =
      Except.ok (some { username := "alice", userID := 0, token := "", tokenID := "",
                        ttl := 60000000000, maxTTL := 120000000000 }) ∧
    (pathRolesWrite true storeEmpty dFull).2 "r2" = storeEmpty "r2" :=
  ⟨(pathRolesWrite_upsert_merge true storeEmpty dMissingUser "r1" rfl (by decide)).1 rfl rfl,
   ((pathRolesWrite_upsert_merge true storeEmpty dFull "r1" rfl (by decide)).2 rfl).1,
   ((pathRolesWrite_upsert_merge true storeEmpty dFull "r1" rfl (by decide)).2 rfl).2 "r2"
     (by decide)⟩

/-- C10: a renew whose internal data binds "role" to a non-string value
panics through the unchecked type assertion `roleRaw.(string)` instead of
returning an error; the missing-role-binding error `secret is missing
role internal data` is returned only when the "role" key is entirely
absent. -/
theorem tokenRenew_nonstring_role_panics (s : RoleStorage) (sec : LeaseSecret) :
    (∀ v, sec.internalData "role" = some v → (∀ t, v ≠ GoValue.str t) →
       tokenRenew s sec = (HandlerResult.panicked, sec, [])) ∧
    (sec.internalData "role" = none →
       tokenRenew s sec =
         (HandlerResult.fault "secret is missing role internal data", sec, [])) := by
  constructor
  · intro v hv hns
    cases v with
    | str t => exact absurd rfl (hns t)
    | int n => simp [tokenRenew, hv]
    | bool bb => simp [tokenRenew, hv]
  · intro h
    simp [tokenRenew, h]

/-- C10 witness: a lease whose "role" entry is the integer 3 makes the
renew panic, for the empty role store. -/
theorem tokenRenew_nonstring_role_panics_witness :
    tokenRenew storeEmpty secIntRole = (HandlerResult.panicked, secIntRole, []) :=
  (tokenRenew_nonstring_role_panics storeEmpty secIntRole).1 (GoValue.int 3) rfl
    (fun _ h => GoValue.noConfusion h)
